import Mathlib

/-!
Verification of the payroll computation and collection-attribution engine of the
Salary-manager application.

The embedding below follows the TypeScript source:
  * `src/services/logic.ts`          — `recalculateEntry` (the EntryCalculator)
  * `src/services/accountService.ts` — `validateAccount` (the AccountEligibilityValidator)
  * `src/App.tsx` (`gridRows`)       — per-record ownership classification and
                                       per-employee/month collection aggregation
  * `src/components/CenterCalculation.tsx` — `getCenterType`

JavaScript numbers are modelled as rationals (`ℚ`).  The idiom `x || 0` on a
number is modelled by `jsOrZero` (both `0` and `NaN` are falsy in JS; on the
rational model only the `0` case is visible, so `jsOrZero` is the identity — a
separate `Option ℚ` model, where `none` plays the role of `NaN`, is used for
the NaN-propagation analysis).  `"YYYY-MM"` month strings that the code parses
into numeric year/month pairs are modelled directly as such pairs.
-/

namespace SalaryManager

/-- JS `x || 0` on an (ideal, non-NaN) number: `0` is falsy and maps to `0`,
every other number is truthy and passes through. -/
def jsOrZero (x : ℚ) : ℚ :=
  if x = 0 then 0 else x

theorem jsOrZero_eq (x : ℚ) : jsOrZero x = x := by
  unfold jsOrZero
  split <;> simp_all

/-- JS `a || b || c` on strings (used for `commissionTypeOverride ||
entry.commission_type || 'A'`): the empty string is falsy, an absent optional
argument (`undefined`) is falsy. -/
def strOr3 (a : Option String) (b : String) (c : String) : String :=
  match a with
  | some s => if s = "" then (if b = "" then c else b) else s
  | none => if b = "" then c else b

/-- `CommissionStructure` from `src/types` / `src/services/logic.ts`:
own/office percentage rates for somity collections. -/
structure CommissionStructure where
  own : ℚ
  office : ℚ
deriving DecidableEq

/-- The book-tier schedule from `src/services/bonusRates.ts` (configuration:
flat per-book commission amounts keyed by the terms 1.5, 3, 5, 8, 10, 12).
The file is configuration data; its concrete amounts are irrelevant to the
properties proved here, so the schedule is passed as an argument. -/
structure BonusRates where
  b1_5 : ℚ
  b3 : ℚ
  b5 : ℚ
  b8 : ℚ
  b10 : ℚ
  b12 : ℚ
deriving DecidableEq

/-- The injected manager context of `recalculateEntry`. -/
structure ManagerContext where
  isManager : Bool
  branchTotalCollection : ℚ
deriving DecidableEq

/-- `SalaryEntry` from `src/types`, with exactly the fields read or written by
`recalculateEntry` and the aggregation in `App.tsx`. -/
structure SalaryEntry where
  id : String
  salary_sheet_id : String
  employee_id : String
  basic_salary : ℚ
  commission_type : String
  own_somity_count : ℚ
  own_somity_collection : ℚ
  office_somity_count : ℚ
  office_somity_collection : ℚ
  center_count : ℚ
  center_collection : ℚ
  total_loan_collection : ℚ
  book_1_5 : ℚ
  book_3 : ℚ
  book_5 : ℚ
  book_8 : ℚ
  book_10 : ℚ
  book_12 : ℚ
  book_no_bonus : ℚ
  input_late_hours : ℚ
  input_absent_days : ℚ
  deduction_cash_advance : ℚ
  deduction_late : ℚ
  deduction_abs : ℚ
  misconductDeduction : ℚ
  deduction_unlawful : ℚ
  deduction_tours : ℚ
  deduction_others : ℚ
  manager_convenience : ℚ
  total_books : ℚ
  total_collection : ℚ
  total_deductions : ℚ
  commission : ℚ
  bonus : ℚ
  final_salary : ℚ
deriving DecidableEq

/-- `BONUS_TARGET_BOOKS` from `src/services/logic.ts`. -/
def BONUS_TARGET_BOOKS : ℚ := 50

/-- `TARGET_BONUS_AMOUNT` from `src/services/logic.ts`. -/
def TARGET_BONUS_AMOUNT : ℚ := 500

/-- `recalculateEntry` from `src/services/logic.ts` (lines 69–184).
`ratesMap` models the JS `Record<string, CommissionStructure>` (an absent key
yields `undefined`, hence the `|| { own: 0, office: 0 }` default). -/
def recalculateEntry (entry : SalaryEntry) (contractualBaseSalary : ℚ)
    (ratesMap : String → Option CommissionStructure)
    (bonusRates : BonusRates)
    (commissionTypeOverride : Option String)
    (managerContext : Option ManagerContext) : SalaryEntry :=
  -- Determine effective commission type
  let commissionType := strOr3 commissionTypeOverride entry.commission_type "A"
  -- 1. Calculate Totals
  let total_books :=
    entry.book_1_5 +
    entry.book_3 +
    entry.book_5 +
    entry.book_8 +
    entry.book_10 +
    entry.book_12 +
    entry.book_no_bonus
  let total_collection :=
    jsOrZero entry.own_somity_collection +
    jsOrZero entry.office_somity_collection +
    jsOrZero entry.center_collection
  -- 2. Calculate Commission
  let rateStruct := (ratesMap commissionType).getD ⟨0, 0⟩
  let ownRate := rateStruct.own / 100
  let officeRate := rateStruct.office / 100
  let collectionCommission :=
    jsOrZero entry.own_somity_collection * ownRate +
    jsOrZero entry.office_somity_collection * officeRate
  let bookCommission :=
    entry.book_1_5 * bonusRates.b1_5 +
    entry.book_3 * bonusRates.b3 +
    entry.book_5 * bonusRates.b5 +
    entry.book_8 * bonusRates.b8 +
    entry.book_10 * bonusRates.b10 +
    entry.book_12 * bonusRates.b12
  let commission := collectionCommission + bookCommission
  -- 3. Calculate Bonus
  let bonus := if total_books ≥ BONUS_TARGET_BOOKS then TARGET_BONUS_AMOUNT else 0
  -- 4. Calculate Deductions (rates use contractualBaseSalary, not entry.basic_salary)
  let dailyRate := contractualBaseSalary / 26
  let hourlyRate := dailyRate / 8
  let deduction_late := jsOrZero entry.input_late_hours * hourlyRate
  let deduction_abs := jsOrZero entry.input_absent_days * dailyRate
  let total_deductions :=
    entry.deduction_cash_advance +
    deduction_late +
    deduction_abs +
    jsOrZero entry.misconductDeduction +
    entry.deduction_unlawful +
    entry.deduction_tours +
    entry.deduction_others
  -- 5. Manager Convenience Logic
  let manager_convenience :=
    match managerContext with
    | none => jsOrZero entry.manager_convenience
    | some ctx =>
      if ctx.isManager then
        let managerOwnCollection :=
          jsOrZero entry.own_somity_collection +
          jsOrZero entry.office_somity_collection +
          jsOrZero entry.total_loan_collection +
          jsOrZero entry.center_collection
        max 0 ((ctx.branchTotalCollection - managerOwnCollection) * (2 / 100))
      else 0
  -- 6. Final Salary (uses the entry's possibly hand-edited basic_salary)
  let final_salary :=
    jsOrZero entry.basic_salary + commission + bonus + manager_convenience - total_deductions
  { entry with
    commission_type := commissionType
    deduction_late := deduction_late
    deduction_abs := deduction_abs
    total_books := total_books
    total_collection := total_collection
    total_deductions := total_deductions
    manager_convenience := manager_convenience
    commission := commission
    bonus := bonus
    final_salary := final_salary }

/-- Claim C1: for every `SalaryEntry` and every set of arguments, the entry
returned by `recalculateEntry` satisfies both derived-total identities:
`total_books` equals `book_1_5 + book_3 + book_5 + book_8 + book_10 + book_12
+ book_no_bonus`, and `total_collection` equals `own_somity_collection +
office_somity_collection + center_collection` (all fields read on the returned
entry). -/
theorem recalculateEntry_total_identities (entry : SalaryEntry)
    (contractualBaseSalary : ℚ) (ratesMap : String → Option CommissionStructure)
    (bonusRates : BonusRates) (commissionTypeOverride : Option String)
    (managerContext : Option ManagerContext) :
    let out := recalculateEntry entry contractualBaseSalary ratesMap bonusRates
      commissionTypeOverride managerContext
    out.total_books =
      out.book_1_5 + out.book_3 + out.book_5 + out.book_8 + out.book_10 +
      out.book_12 + out.book_no_bonus ∧
    out.total_collection =
      out.own_somity_collection + out.office_somity_collection + out.center_collection := by
  constructor <;> simp [recalculateEntry, jsOrZero_eq]

/-- Claim C3: with a `managerContext` present, the output's
`manager_convenience` is `max 0 ((branchTotalCollection - (own_somity_collection
+ office_somity_collection + total_loan_collection + center_collection)) * 0.02)`
when `isManager` is true, and `0` when `isManager` is false, regardless of any
previously stored value on the entry. -/
theorem recalculateEntry_manager_convenience (entry : SalaryEntry)
    (contractualBaseSalary : ℚ) (ratesMap : String → Option CommissionStructure)
    (bonusRates : BonusRates) (commissionTypeOverride : Option String)
    (ctx : ManagerContext) :
    (recalculateEntry entry contractualBaseSalary ratesMap bonusRates
      commissionTypeOverride (some ctx)).manager_convenience =
      if ctx.isManager then
        max 0 ((ctx.branchTotalCollection -
          (entry.own_somity_collection + entry.office_somity_collection +
           entry.total_loan_collection + entry.center_collection)) * (2 / 100))
      else 0 := by
  cases h : ctx.isManager <;> simp [recalculateEntry, jsOrZero_eq, h]

/-- Claim C4: `recalculateEntry` derives the time-based deductions from the
`contractualBaseSalary` argument (`deduction_late = input_late_hours *
(contractualBaseSalary / 26 / 8)`, `deduction_abs = input_absent_days *
(contractualBaseSalary / 26)`), never from the entry's `basic_salary`; yet
`final_salary` uses the entry's possibly hand-edited `basic_salary` as its
base: `final_salary = basic_salary + commission + bonus + manager_convenience
- total_deductions` (derived fields read on the returned entry). -/
theorem recalculateEntry_deduction_base_vs_final_base (entry : SalaryEntry)
    (contractualBaseSalary : ℚ) (ratesMap : String → Option CommissionStructure)
    (bonusRates : BonusRates) (commissionTypeOverride : Option String)
    (managerContext : Option ManagerContext) :
    let out := recalculateEntry entry contractualBaseSalary ratesMap bonusRates
      commissionTypeOverride managerContext
    out.deduction_late = entry.input_late_hours * (contractualBaseSalary / 26 / 8) ∧
    out.deduction_abs = entry.input_absent_days * (contractualBaseSalary / 26) ∧
    out.final_salary =
      entry.basic_salary + out.commission + out.bonus + out.manager_convenience -
        out.total_deductions := by
  refine ⟨?_, ?_, ?_⟩ <;> simp [recalculateEntry, jsOrZero_eq]

/-- Claim C10: when the optional `managerContext` argument is omitted,
`recalculateEntry` carries the entry's previously stored `manager_convenience`
through to the output (the `|| 0` coercion only affects falsy values, which on
rationals is the identity) and still adds it into `final_salary`, so a
non-manager entry recalculated without a `managerContext` can retain a stale
nonzero manager incentive. -/
theorem recalculateEntry_no_context_keeps_manager_convenience (entry : SalaryEntry)
    (contractualBaseSalary : ℚ) (ratesMap : String → Option CommissionStructure)
    (bonusRates : BonusRates) (commissionTypeOverride : Option String) :
    let out := recalculateEntry entry contractualBaseSalary ratesMap bonusRates
      commissionTypeOverride none
    out.manager_convenience = entry.manager_convenience ∧
    out.final_salary =
      entry.basic_salary + out.commission + out.bonus + entry.manager_convenience -
        out.total_deductions := by
  constructor <;> simp [recalculateEntry, jsOrZero_eq]

/-- A `"YYYY-MM"` month (the code splits such strings on `-` and maps the
pieces through `Number`; the embedding keeps the numeric year/month pair). -/
structure YM where
  y : Int
  m : Int
deriving DecidableEq

/-- `AccountOpening` from `src/types`, with the fields read by
`validateAccount`.  `opening_date` is `"YYYY-MM-DD"`; only its year and month
are consumed (`const [openY, openM] = ac.opening_date.split('-').map(Number)`),
so it is kept as a `YM`.  `counted_month` may be `undefined`. -/
structure AccountOpening where
  account_code : String
  opened_by_employee_id : String
  branch_id : String
  collection_amount : ℚ
  opening_date : YM
  is_counted : Bool
  counted_month : Option YM
deriving DecidableEq

/-- The closed set of rejection reason strings of `validateAccount`
(`src/services/accountService.ts`), one constructor per message:
`accountNotFound` = "Account not found", `belongsToAnotherEmployee` =
"Belongs to another employee", `branchMismatch` = "Branch mismatch",
`alreadyScannedInThisSheet` = "Already scanned in this sheet",
`usedIn m` = "Used in (m or 'past')", `collectionBelow600` =
"Not Eligible: Collection < 600", `openedAfterSheetMonth` =
"Error: Account opened after sheet month", `expired` =
"Expired: 2-month bonus window passed". -/
inductive ValidationError where
  | accountNotFound
  | belongsToAnotherEmployee
  | branchMismatch
  | alreadyScannedInThisSheet
  | usedIn (m : Option YM)
  | collectionBelow600
  | openedAfterSheetMonth
  | expired
deriving DecidableEq

/-- The result shape `{ ok: boolean; error?: string; account?: AccountOpening }`
of `validateAccount`. -/
inductive ValidationResult where
  | ok (account : AccountOpening)
  | rejected (reason : ValidationError)
deriving DecidableEq

/-- The month difference computed by `validateAccount`:
`(sheetY - openY) * 12 + (sheetM - openM)`. -/
def monthDiff (sheetMonth openMonth : YM) : Int :=
  (sheetMonth.y - openMonth.y) * 12 + (sheetMonth.m - openMonth.m)

/-- JS `String.prototype.toLowerCase`, modelled character-wise (on the ASCII
codes that account codes use this agrees with JS). -/
def toLowerCase (s : String) : String :=
  String.mk (s.data.map Char.toLower)

/-- JS `String.prototype.trim`: strip leading and trailing whitespace. -/
def trimStr (s : String) : String :=
  String.mk (((s.data.dropWhile Char.isWhitespace).reverse.dropWhile
    Char.isWhitespace).reverse)

/-- The case-insensitive lookup predicate used by `validateAccount`:
`a.account_code.toLowerCase() === code.trim().toLowerCase()`. -/
def codeMatches (code : String) (a : AccountOpening) : Bool :=
  toLowerCase a.account_code == toLowerCase (trimStr code)

/-- `validateAccount` from `src/services/accountService.ts` (lines 8–64). -/
def validateAccount (code : String) (employeeId : String) (branchId : String)
    (sheetMonth : YM) (allAccounts : List AccountOpening) : ValidationResult :=
  match allAccounts.find? (codeMatches code) with
  | none => .rejected .accountNotFound
  | some ac =>
    if ac.opened_by_employee_id ≠ employeeId then
      .rejected .belongsToAnotherEmployee
    else if ac.branch_id ≠ branchId then
      .rejected .branchMismatch
    else if ac.is_counted then
      if ac.counted_month = some sheetMonth then
        .rejected .alreadyScannedInThisSheet
      else
        .rejected (.usedIn ac.counted_month)
    else if ac.collection_amount < 600 then
      .rejected .collectionBelow600
    else if monthDiff sheetMonth ac.opening_date < 0 then
      .rejected .openedAfterSheetMonth
    else if monthDiff sheetMonth ac.opening_date > 2 then
      .rejected .expired
    else
      .ok ac

/-- Claim C2: `validateAccount` returns `Ok(account)` exactly when a
case-insensitive match for the code exists that belongs to the scanning
employee and branch, is not yet counted, has `collection_amount ≥ 600`, and
whose `monthDiff = (sheetY - openY) * 12 + (sheetM - openM)` lies in `[0, 2]`
(so 599 is rejected while 600 is accepted, and `monthDiff` 2 is accepted while
3 is rejected).  Account codes are case-insensitively unique in the account
list, as the data model requires. -/
theorem validateAccount_ok_iff (code employeeId branchId : String) (sheetMonth : YM)
    (l : List AccountOpening)
    (huniq : ∀ a ∈ l, ∀ b ∈ l,
      toLowerCase a.account_code = toLowerCase b.account_code → a = b)
    (ac : AccountOpening) :
    validateAccount code employeeId branchId sheetMonth l = .ok ac ↔
      ac ∈ l ∧ toLowerCase ac.account_code = toLowerCase (trimStr code) ∧
      ac.opened_by_employee_id = employeeId ∧ ac.branch_id = branchId ∧
      ac.is_counted = false ∧ 600 ≤ ac.collection_amount ∧
      0 ≤ monthDiff sheetMonth ac.opening_date ∧
      monthDiff sheetMonth ac.opening_date ≤ 2 := by
  constructor
  · intro h
    unfold validateAccount at h
    cases hf : l.find? (codeMatches code) with
    | none => rw [hf] at h; exact absurd h (by simp)
    | some a =>
      rw [hf] at h
      dsimp only at h
      have hmem := List.mem_of_find?_eq_some hf
      have hp := List.find?_some hf
      simp only [codeMatches, beq_iff_eq] at hp
      split_ifs at h with h1 h2 h3 h4 h5 h6 h7 <;> cases h
      push_neg at h1 h2
      exact ⟨hmem, hp, h1, h2, Bool.eq_false_iff.mpr h3, not_lt.mp h5,
        not_lt.mp h6, not_lt.mp h7⟩
  · rintro ⟨hmem, hcode, hemp, hbr, hcnt, hamt, hmd0, hmd2⟩
    have hex : ∃ x, x ∈ l ∧ codeMatches code x = true :=
      ⟨ac, hmem, by simp [codeMatches, hcode]⟩
    have hsome : (l.find? (codeMatches code)).isSome := by
      rw [List.find?_isSome]
      exact hex
    obtain ⟨b, hfb⟩ := Option.isSome_iff_exists.mp hsome
    have hb := List.find?_some hfb
    simp only [codeMatches, beq_iff_eq] at hb
    have hbmem := List.mem_of_find?_eq_some hfb
    have hbac : b = ac := huniq b hbmem ac hmem (by rw [hb, hcode])
    subst hbac
    unfold validateAccount
    rw [hfb]
    simp [hemp, hbr, hcnt, not_lt.mpr hamt, not_lt.mpr hmd0, not_lt.mpr hmd2]

/-- Concrete account used to instantiate the `validateAccount` theorems. -/
def sampleAccount : AccountOpening :=
  { account_code := "AC-7"
    opened_by_employee_id := "e1"
    branch_id := "b1"
    collection_amount := 600
    opening_date := ⟨2024, 1⟩
    is_counted := false
    counted_month := none }

/-- Witness for C2: on a concrete singleton account list, the characterization
yields acceptance of a 600-taka account scanned two months after opening. -/
theorem validateAccount_ok_iff_witness :
    validateAccount "ac-7" "e1" "b1" ⟨2024, 3⟩ [sampleAccount] = .ok sampleAccount :=
  (validateAccount_ok_iff "ac-7" "e1" "b1" ⟨2024, 3⟩ [sampleAccount]
    (by intro a ha b hb _; simp only [List.mem_singleton] at ha hb; rw [ha, hb])
    sampleAccount).mpr
    ⟨by simp, by decide, rfl, rfl, rfl, by norm_num [sampleAccount],
     by norm_num [sampleAccount, monthDiff], by norm_num [sampleAccount, monthDiff]⟩

/-- Claim C7: `validateAccount` checks its rejection reasons in the fixed
order not-found, ownership mismatch, branch mismatch, already-counted, amount
floor, time window, returning the first failing reason; in particular an
account with `is_counted` true always yields a rejection — reason "Already
scanned in this sheet" when `counted_month` equals the sheet month, a
"Used in `<countedMonth>`" reason otherwise — and a counted account is never
returned as `Ok`.  Each conjunct fixes the earlier checks and leaves the later
ones unconstrained, so together they state that the first failing check in
that order decides the reason. -/
theorem validateAccount_first_failing_reason (code employeeId branchId : String)
    (sheetMonth : YM) (l : List AccountOpening) :
    (∀ b, validateAccount code employeeId branchId sheetMonth l = .ok b →
      b.is_counted = false) ∧
    (l.find? (codeMatches code) = none →
      validateAccount code employeeId branchId sheetMonth l =
        .rejected .accountNotFound) ∧
    (∀ ac, l.find? (codeMatches code) = some ac →
      ac.opened_by_employee_id ≠ employeeId →
      validateAccount code employeeId branchId sheetMonth l =
        .rejected .belongsToAnotherEmployee) ∧
    (∀ ac, l.find? (codeMatches code) = some ac →
      ac.opened_by_employee_id = employeeId → ac.branch_id ≠ branchId →
      validateAccount code employeeId branchId sheetMonth l =
        .rejected .branchMismatch) ∧
    (∀ ac, l.find? (codeMatches code) = some ac →
      ac.opened_by_employee_id = employeeId → ac.branch_id = branchId →
      ac.is_counted = true →
      validateAccount code employeeId branchId sheetMonth l =
        .rejected (if ac.counted_month = some sheetMonth then
          .alreadyScannedInThisSheet else .usedIn ac.counted_month)) ∧
    (∀ ac, l.find? (codeMatches code) = some ac →
      ac.opened_by_employee_id = employeeId → ac.branch_id = branchId →
      ac.is_counted = false → ac.collection_amount < 600 →
      validateAccount code employeeId branchId sheetMonth l =
        .rejected .collectionBelow600) ∧
    (∀ ac, l.find? (codeMatches code) = some ac →
      ac.opened_by_employee_id = employeeId → ac.branch_id = branchId →
      ac.is_counted = false → 600 ≤ ac.collection_amount →
      monthDiff sheetMonth ac.opening_date < 0 →
      validateAccount code employeeId branchId sheetMonth l =
        .rejected .openedAfterSheetMonth) ∧
    (∀ ac, l.find? (codeMatches code) = some ac →
      ac.opened_by_employee_id = employeeId → ac.branch_id = branchId →
      ac.is_counted = false → 600 ≤ ac.collection_amount →
      0 ≤ monthDiff sheetMonth ac.opening_date →
      2 < monthDiff sheetMonth ac.opening_date →
      validateAccount code employeeId branchId sheetMonth l =
        .rejected .expired) := by
  refine ⟨?_, ?_, ?_, ?_, ?_, ?_, ?_, ?_⟩
  · intro b h
    unfold validateAccount at h
    cases hf : l.find? (codeMatches code) with
    | none => rw [hf] at h; exact absurd h (by simp)
    | some a =>
      rw [hf] at h
      dsimp only at h
      split_ifs at h with h1 h2 h3 h4 h5 h6 h7 <;> cases h
      exact Bool.eq_false_iff.mpr h3
  · intro hf
    unfold validateAccount
    rw [hf]
  · intro ac hf hown
    unfold validateAccount
    rw [hf]
    simp [hown]
  · intro ac hf hown hbr
    unfold validateAccount
    rw [hf]
    simp [hown, hbr]
  · intro ac hf hown hbr hcnt
    unfold validateAccount
    rw [hf]
    by_cases hm : ac.counted_month = some sheetMonth <;> simp [hown, hbr, hcnt, hm]
  · intro ac hf hown hbr hcnt hamt
    unfold validateAccount
    rw [hf]
    simp [hown, hbr, hcnt, hamt]
  · intro ac hf hown hbr hcnt hamt hmd
    unfold validateAccount
    rw [hf]
    simp [hown, hbr, hcnt, not_lt.mpr hamt, hmd]
  · intro ac hf hown hbr hcnt hamt hmd0 hmd2
    unfold validateAccount
    rw [hf]
    simp [hown, hbr, hcnt, not_lt.mpr hamt, not_lt.mpr hmd0, hmd2]

/-- Concrete already-counted account used to instantiate the C7 theorem. -/
def countedAccount : AccountOpening :=
  { account_code := "AC-9"
    opened_by_employee_id := "e1"
    branch_id := "b1"
    collection_amount := 700
    opening_date := ⟨2024, 2⟩
    is_counted := true
    counted_month := some ⟨2024, 2⟩ }

/-- Witness for C7: a counted account (counted in a different month than the
sheet) is rejected with the "Used in ..." reason. -/
theorem validateAccount_first_failing_reason_witness :
    validateAccount "AC-9" "e1" "b1" ⟨2024, 3⟩ [countedAccount] =
      .rejected (.usedIn (some ⟨2024, 2⟩)) := by
  have h := (validateAccount_first_failing_reason "AC-9" "e1" "b1" ⟨2024, 3⟩
    [countedAccount]).2.2.2.2.1 countedAccount (by decide) rfl rfl rfl
  simpa [countedAccount] using h

/-- The `'OWN' | 'OFFICE'` classification. -/
inductive CenterType where
  | OWN
  | OFFICE
deriving DecidableEq

/-- `Center` master registration from `src/types`: the `type` field is
optional (`type?`). -/
structure Center where
  centerCode : Int
  centerName : String
  branchId : String
  assignedEmployeeId : String
  ctype : Option CenterType
deriving DecidableEq

/-- `CenterCollectionRecord` from `src/types`, with the fields read by the
`gridRows` aggregation in `src/App.tsx`.  `rtype` is the record's stored
ownership classification (`r.type`), computed at creation time. -/
structure CenterCollectionRecord where
  employeeId : String
  branchId : String
  centerCode : Int
  amount : ℚ
  loanAmount : ℚ
  createdAt : String
  rtype : CenterType
deriving DecidableEq

/-- The center lookup of `gridRows` (`src/App.tsx` lines 455–459): a JS `Map`
keyed by `` `${branchId}-${centerCode}` `` filled by iterating over `centers`,
so for duplicate keys the last entry wins. -/
def centerMapGet (centers : List Center) (branchId : String) (code : Int) :
    Option Center :=
  (centers.filter (fun c => c.branchId == branchId && c.centerCode == code)).getLast?

/-- The per-record ownership classification of `gridRows` (`src/App.tsx`
lines 475–497): `true` means the record is classified OWN. -/
def recordIsOwn (centers : List Center) (employeeId : String)
    (r : CenterCollectionRecord) : Bool :=
  match centerMapGet centers r.branchId r.centerCode with
  | some center =>
    -- 1. Force OFFICE if type explicitly set in master
    if center.ctype = some .OFFICE then false
    -- 2. Otherwise apply ownership rule
    else center.assignedEmployeeId == employeeId
  | none =>
    -- Center not found in config: Fallback to static type from record
    r.rtype == .OWN

/-- `getCenterType` from `src/components/CenterCalculation.tsx` (lines
113–133).  `isNewCenter` and `newCenterType` are the component-state values it
closes over (whether the entered code is new for the branch, and the type
chosen for a new center). -/
def getCenterType (centers : List Center) (isNewCenter : Bool)
    (newCenterType : CenterType) (code : Int) (branchId : String)
    (collectingEmpId : String) : CenterType :=
  match centers.find? (fun c => c.centerCode == code && c.branchId == branchId) with
  | some configuredCenter =>
    if configuredCenter.ctype = some .OFFICE then .OFFICE
    else if configuredCenter.assignedEmployeeId == collectingEmpId then .OWN
    else .OFFICE
  | none =>
    if isNewCenter then newCenterType
    else if code % 2 ≠ 0 then .OWN else .OFFICE

/-- Claim C6: a collection record whose `(branchId, centerCode)` matches a
Center master entry with `type` explicitly `"OFFICE"` is classified OFFICE by
the ownership resolver, even when the center's `assignedEmployeeId` equals the
collecting employee's id. -/
theorem recordIsOwn_office_override (centers : List Center) (employeeId : String)
    (r : CenterCollectionRecord) (c : Center)
    (hc : centerMapGet centers r.branchId r.centerCode = some c)
    (hoff : c.ctype = some .OFFICE) :
    recordIsOwn centers employeeId r = false := by
  unfold recordIsOwn
  rw [hc]
  simp [hoff]

/-- Concrete OFFICE-typed center assigned to the collecting employee, used to
instantiate the C6 theorem. -/
def officeCenter : Center :=
  { centerCode := 5
    centerName := "Center five"
    branchId := "b1"
    assignedEmployeeId := "e1"
    ctype := some .OFFICE }

/-- Concrete record collected at `officeCenter` by its own assigned employee. -/
def officeCenterRecord : CenterCollectionRecord :=
  { employeeId := "e1"
    branchId := "b1"
    centerCode := 5
    amount := 100
    loanAmount := 0
    createdAt := "2024-03-05"
    rtype := .OWN }

/-- Witness for C6: the record of the assigned employee at an explicitly
OFFICE-typed center is still classified OFFICE. -/
theorem recordIsOwn_office_override_witness :
    recordIsOwn [officeCenter] "e1" officeCenterRecord = false :=
  recordIsOwn_office_override [officeCenter] "e1" officeCenterRecord officeCenter
    (by decide) rfl

/-- Concrete record at an even-coded center with stored type OWN and no
master entry, used to refute claim C9. -/
def evenOwnRecord : CenterCollectionRecord :=
  { employeeId := "e1"
    branchId := "b1"
    centerCode := 4
    amount := 50
    loanAmount := 0
    createdAt := "2024-03-02"
    rtype := .OWN }

/-- Counterexample to claim C9 as stated: with an empty Center master list,
the record at even center code 4 is classified OWN by the grid aggregation's
ownership resolver (it falls back to the record's stored type, not to code
parity), while the claim predicts OFFICE for an even code. -/
theorem recordIsOwn_parity_counterexample :
    centerMapGet [] evenOwnRecord.branchId evenOwnRecord.centerCode = none ∧
    evenOwnRecord.centerCode % 2 = 0 ∧
    recordIsOwn [] "e1" evenOwnRecord = true := by
  refine ⟨rfl, by decide, by decide⟩

/-- Claim C9 (amended): when no Center master entry matches, the grid
aggregation (`gridRows` in `src/App.tsx`) classifies a collection record by
the record's stored type — OWN exactly when `r.type` is `"OWN"` — regardless
of code parity; the parity fallback (odd numeric code ⇒ OWN, even ⇒ OFFICE)
applies only in `getCenterType` of the CenterCalculation screen, and there
only when the entered code is not flagged as a new center. -/
theorem ownership_no_master_fallbacks (centers : List Center) (employeeId : String)
    (r : CenterCollectionRecord) (isNewCenter : Bool) (newCenterType : CenterType)
    (code : Int) (branchId collectingEmpId : String) :
    (centerMapGet centers r.branchId r.centerCode = none →
      recordIsOwn centers employeeId r = (r.rtype == CenterType.OWN)) ∧
    (centers.find? (fun c => c.centerCode == code && c.branchId == branchId) = none →
      isNewCenter = false →
      getCenterType centers isNewCenter newCenterType code branchId collectingEmpId =
        if code % 2 ≠ 0 then CenterType.OWN else CenterType.OFFICE) := by
  constructor
  · intro hr
    unfold recordIsOwn
    rw [hr]
  · intro hf hnew
    unfold getCenterType
    rw [hf, hnew]
    simp

/-- Witness for the amended C9: with an empty master list the stored-type
fallback classifies `evenOwnRecord` as OWN, and `getCenterType` outside the
new-center path sends the odd code 7 to OWN by parity. -/
theorem ownership_no_master_fallbacks_witness :
    recordIsOwn [] "e1" evenOwnRecord = (evenOwnRecord.rtype == CenterType.OWN) ∧
    getCenterType [] false CenterType.OFFICE 7 "b1" "e1" = CenterType.OWN := by
  constructor
  · exact (ownership_no_master_fallbacks [] "e1" evenOwnRecord false
      CenterType.OFFICE 7 "b1" "e1").1 rfl
  · have h := (ownership_no_master_fallbacks [] "e1" evenOwnRecord false
      CenterType.OFFICE 7 "b1" "e1").2 rfl rfl
    simpa using h

/-- JS `s.startsWith(p)`, modelled character-wise: the first `p.length`
characters of `s` equal `p`. -/
def strStartsWith (s p : String) : Bool :=
  s.data.take p.data.length == p.data

/-- The aggregated result shape computed per entry by `gridRows`
(`src/App.tsx` lines 499–504). -/
structure AggResult where
  own_somity_collection : ℚ
  own_somity_count : ℕ
  office_somity_collection : ℚ
  office_somity_count : ℕ
  total_loan_collection : ℚ
deriving DecidableEq

/-- The per-employee/month collection aggregation of `gridRows`
(`src/App.tsx` lines 448–504): group records by employee
(`recordsByEmp[entry.employee_id] || []`), keep those created within the
selected month (`r.createdAt.startsWith(selectedMonth)`), push each into
`ownRecords`/`offRecords` by the dynamic ownership rule, then reduce sums, set
sizes and the loan total. -/
def aggregateCollections (centers : List Center) (employeeId : String)
    (selectedMonth : String) (allRecords : List CenterCollectionRecord) :
    AggResult :=
  let empRecords := allRecords.filter (fun r => r.employeeId == employeeId)
  let currentMonthRecords :=
    empRecords.filter (fun r => strStartsWith r.createdAt selectedMonth)
  let parts := currentMonthRecords.partition (fun r => recordIsOwn centers employeeId r)
  { own_somity_collection := parts.1.foldl (fun sum r => sum + r.amount) 0
    own_somity_count := ((parts.1.map (fun r => r.centerCode)).dedup).length
    office_somity_collection := parts.2.foldl (fun sum r => sum + r.amount) 0
    office_somity_count := ((parts.2.map (fun r => r.centerCode)).dedup).length
    total_loan_collection :=
      currentMonthRecords.foldl (fun sum r => sum + jsOrZero r.loanAmount) 0 }

theorem foldl_add_eq_sum {α : Type} (f : α → ℚ) (l : List α) (init : ℚ) :
    l.foldl (fun s a => s + f a) init = init + (l.map f).sum := by
  induction l generalizing init with
  | nil => simp
  | cons a t ih => simp [ih, add_assoc]

theorem sum_map_filter_split {α : Type} (f : α → ℚ) (p : α → Bool) (l : List α) :
    ((l.filter p).map f).sum + ((l.filter (fun a => !(p a))).map f).sum =
      (l.map f).sum := by
  induction l with
  | nil => simp
  | cons a t ih =>
    cases h : p a <;> simp [h, ← ih] <;> ring

/-- The employee's records created within the selected month, as filtered by
`gridRows` before classification. -/
def monthMatched (employeeId : String) (selectedMonth : String)
    (allRecords : List CenterCollectionRecord) : List CenterCollectionRecord :=
  (allRecords.filter (fun r => r.employeeId == employeeId)).filter
    (fun r => strStartsWith r.createdAt selectedMonth)

/-- Claim C8: the collection aggregation over an employee's records created
within the month sums `amount` into own/office buckets per the recomputed
classification, counts distinct center codes (not records) per bucket, and
sums `loanAmount` over all matched records into `total_loan_collection`
irrespective of whether each record was classified OWN or OFFICE. -/
theorem aggregateCollections_spec (centers : List Center) (employeeId : String)
    (selectedMonth : String) (allRecords : List CenterCollectionRecord) :
    (aggregateCollections centers employeeId selectedMonth allRecords).own_somity_collection =
      (((monthMatched employeeId selectedMonth allRecords).filter
        (fun r => recordIsOwn centers employeeId r)).map (fun r => r.amount)).sum ∧
    (aggregateCollections centers employeeId selectedMonth allRecords).office_somity_collection =
      (((monthMatched employeeId selectedMonth allRecords).filter
        (fun r => !(recordIsOwn centers employeeId r))).map (fun r => r.amount)).sum ∧
    (aggregateCollections centers employeeId selectedMonth allRecords).own_somity_count =
      (((monthMatched employeeId selectedMonth allRecords).filter
        (fun r => recordIsOwn centers employeeId r)).map
          (fun r => r.centerCode)).toFinset.card ∧
    (aggregateCollections centers employeeId selectedMonth allRecords).office_somity_count =
      (((monthMatched employeeId selectedMonth allRecords).filter
        (fun r => !(recordIsOwn centers employeeId r))).map
          (fun r => r.centerCode)).toFinset.card ∧
    (aggregateCollections centers employeeId selectedMonth allRecords).total_loan_collection =
      (((monthMatched employeeId selectedMonth allRecords).filter
        (fun r => recordIsOwn centers employeeId r)).map (fun r => r.loanAmount)).sum +
      (((monthMatched employeeId selectedMonth allRecords).filter
        (fun r => !(recordIsOwn centers employeeId r))).map (fun r => r.loanAmount)).sum := by
  unfold aggregateCollections monthMatched
  simp only [List.partition_eq_filter_filter, Function.comp]
  refine ⟨?_, ?_, ?_, ?_, ?_⟩
  · simpa using foldl_add_eq_sum (fun (r : CenterCollectionRecord) => r.amount) _ 0
  · simpa using foldl_add_eq_sum (fun (r : CenterCollectionRecord) => r.amount) _ 0
  · simp [List.card_toFinset]
  · simp [List.card_toFinset]
  · rw [foldl_add_eq_sum (fun (r : CenterCollectionRecord) => jsOrZero r.loanAmount) _ 0]
    have h2 : ∀ l : List CenterCollectionRecord,
        (l.map (fun r => jsOrZero r.loanAmount)) = (l.map (fun r => r.loanAmount)) := by
      intro l
      simp [jsOrZero_eq]
    rw [h2]
    rw [zero_add]
    exact (sum_map_filter_split (fun (r : CenterCollectionRecord) => r.loanAmount)
      (fun r => recordIsOwn centers employeeId r) _).symm

/-- A JS number for the NaN-propagation analysis: `none` plays the role of
`NaN`, `some q` an ordinary (exact) number. -/
abbrev JSNum := Option ℚ

/-- JS addition: `NaN` absorbs. -/
def jadd : JSNum → JSNum → JSNum
  | some a, some b => some (a + b)
  | _, _ => none

/-- JS subtraction: `NaN` absorbs. -/
def jsub : JSNum → JSNum → JSNum
  | some a, some b => some (a - b)
  | _, _ => none

/-- JS multiplication: `NaN` absorbs (the exact-rational model has no
infinities, so `0 * NaN = NaN` is the only absorbing case that matters). -/
def jmul : JSNum → JSNum → JSNum
  | some a, some b => some (a * b)
  | _, _ => none

/-- JS `x || 0` on an actual JS number: both `0` and `NaN` are falsy. -/
def jOrZero : JSNum → JSNum
  | none => some 0
  | some a => if a = 0 then some 0 else some a

/-- JS `Math.max(0, x)`: `Math.max` returns `NaN` if any argument is `NaN`. -/
def jmaxZero : JSNum → JSNum
  | none => none
  | some a => some (max 0 a)

/-- JS `a >= b`: any comparison with `NaN` is false. -/
def jge : JSNum → JSNum → Bool
  | some a, some b => a ≥ b
  | _, _ => false

theorem jOrZero_eq_some (x : JSNum) : ∃ y, jOrZero x = some y := by
  cases x with
  | none => exact ⟨0, rfl⟩
  | some a =>
    unfold jOrZero
    by_cases h : a = 0 <;> simp [h]

/-- `SalaryEntry` with its numeric fields as JS numbers (`none` = `NaN`),
for the NaN-propagation analysis of `recalculateEntry`. -/
structure SalaryEntryN where
  basic_salary : JSNum
  commission_type : String
  own_somity_collection : JSNum
  office_somity_collection : JSNum
  center_collection : JSNum
  total_loan_collection : JSNum
  book_1_5 : JSNum
  book_3 : JSNum
  book_5 : JSNum
  book_8 : JSNum
  book_10 : JSNum
  book_12 : JSNum
  book_no_bonus : JSNum
  input_late_hours : JSNum
  input_absent_days : JSNum
  deduction_cash_advance : JSNum
  deduction_late : JSNum
  deduction_abs : JSNum
  misconductDeduction : JSNum
  deduction_unlawful : JSNum
  deduction_tours : JSNum
  deduction_others : JSNum
  manager_convenience : JSNum
  total_books : JSNum
  total_collection : JSNum
  total_deductions : JSNum
  commission : JSNum
  bonus : JSNum
  final_salary : JSNum
deriving DecidableEq

/-- `recalculateEntry` from `src/services/logic.ts`, re-expressed over JS
numbers with explicit NaN propagation (the same formulas as
`recalculateEntry`, with `+`, `-`, `*`, `|| 0`, `Math.max` and `>=` given
their JS behaviour on `NaN`).  Configuration inputs (`contractualBaseSalary`,
the rate table, the book-tier schedule, `branchTotalCollection`) are ordinary
numbers; the analysis concerns the entry's user-editable fields. -/
def recalculateEntryN (entry : SalaryEntryN) (contractualBaseSalary : ℚ)
    (ratesMap : String → Option CommissionStructure)
    (bonusRates : BonusRates)
    (commissionTypeOverride : Option String)
    (managerContext : Option ManagerContext) : SalaryEntryN :=
  let commissionType := strOr3 commissionTypeOverride entry.commission_type "A"
  let total_books :=
    jadd (jadd (jadd (jadd (jadd (jadd entry.book_1_5 entry.book_3)
      entry.book_5) entry.book_8) entry.book_10) entry.book_12) entry.book_no_bonus
  let total_collection :=
    jadd (jadd (jOrZero entry.own_somity_collection)
      (jOrZero entry.office_somity_collection)) (jOrZero entry.center_collection)
  let rateStruct := (ratesMap commissionType).getD ⟨0, 0⟩
  let ownRate := rateStruct.own / 100
  let officeRate := rateStruct.office / 100
  let collectionCommission :=
    jadd (jmul (jOrZero entry.own_somity_collection) (some ownRate))
      (jmul (jOrZero entry.office_somity_collection) (some officeRate))
  let bookCommission :=
    jadd (jadd (jadd (jadd (jadd (jmul entry.book_1_5 (some bonusRates.b1_5))
      (jmul entry.book_3 (some bonusRates.b3)))
      (jmul entry.book_5 (some bonusRates.b5)))
      (jmul entry.book_8 (some bonusRates.b8)))
      (jmul entry.book_10 (some bonusRates.b10)))
      (jmul entry.book_12 (some bonusRates.b12))
  let commission := jadd collectionCommission bookCommission
  let bonus := if jge total_books (some BONUS_TARGET_BOOKS)
    then some TARGET_BONUS_AMOUNT else some 0
  let dailyRate := contractualBaseSalary / 26
  let hourlyRate := dailyRate / 8
  let deduction_late := jmul (jOrZero entry.input_late_hours) (some hourlyRate)
  let deduction_abs := jmul (jOrZero entry.input_absent_days) (some dailyRate)
  let total_deductions :=
    jadd (jadd (jadd (jadd (jadd (jadd entry.deduction_cash_advance deduction_late)
      deduction_abs) (jOrZero entry.misconductDeduction)) entry.deduction_unlawful)
      entry.deduction_tours) entry.deduction_others
  let manager_convenience :=
    match managerContext with
    | none => jOrZero entry.manager_convenience
    | some ctx =>
      if ctx.isManager then
        let managerOwnCollection :=
          jadd (jadd (jadd (jOrZero entry.own_somity_collection)
            (jOrZero entry.office_somity_collection))
            (jOrZero entry.total_loan_collection)) (jOrZero entry.center_collection)
        jmaxZero (jmul (jsub (some ctx.branchTotalCollection) managerOwnCollection)
          (some (2 / 100)))
      else some 0
  let final_salary :=
    jsub (jadd (jadd (jadd (jOrZero entry.basic_salary) commission) bonus)
      manager_convenience) total_deductions
  { entry with
    commission_type := commissionType
    deduction_late := deduction_late
    deduction_abs := deduction_abs
    total_books := total_books
    total_collection := total_collection
    total_deductions := total_deductions
    manager_convenience := manager_convenience
    commission := commission
    bonus := bonus
    final_salary := final_salary }

/-- Entry whose `book_1_5` field is `NaN` (a malformed numeric input) and
whose every other numeric field is the ordinary number `0`. -/
def nanBookEntry : SalaryEntryN :=
  { basic_salary := some 0
    commission_type := "A"
    own_somity_collection := some 0
    office_somity_collection := some 0
    center_collection := some 0
    total_loan_collection := some 0
    book_1_5 := none
    book_3 := some 0
    book_5 := some 0
    book_8 := some 0
    book_10 := some 0
    book_12 := some 0
    book_no_bonus := some 0
    input_late_hours := some 0
    input_absent_days := some 0
    deduction_cash_advance := some 0
    deduction_late := some 0
    deduction_abs := some 0
    misconductDeduction := some 0
    deduction_unlawful := some 0
    deduction_tours := some 0
    deduction_others := some 0
    manager_convenience := some 0
    total_books := some 0
    total_collection := some 0
    total_deductions := some 0
    commission := some 0
    bonus := some 0
    final_salary := some 0 }

/-- Counterexample to claim C5 as stated: the book counters (and the direct
deduction amount fields) are consumed without a `|| 0` guard, so a `NaN`
`book_1_5` is not treated as zero — it propagates into `total_books`,
`commission` and `final_salary` of the recalculated entry (had it been
treated as zero, `total_books` would have been `some 0`). -/
theorem recalculateEntryN_nan_counterexample :
    nanBookEntry.book_1_5 = none ∧
    (recalculateEntryN nanBookEntry 26000 (fun _ => none) ⟨5, 10, 15, 20, 25, 30⟩
      none none).total_books = none ∧
    (recalculateEntryN nanBookEntry 26000 (fun _ => none) ⟨5, 10, 15, 20, 25, 30⟩
      none none).commission = none ∧
    (recalculateEntryN nanBookEntry 26000 (fun _ => none) ⟨5, 10, 15, 20, 25, 30⟩
      none none).final_salary = none := by
  refine ⟨rfl, ?_, ?_, ?_⟩ <;> rfl

/-- Claim C5 (amended): `recalculateEntry` coerces a malformed (NaN) value to
zero only on the fields it reads through `|| 0` — the somity/center collection
fields, `total_loan_collection`, the deduction inputs (`input_late_hours`,
`input_absent_days`), `misconductDeduction`, `manager_convenience` and
`basic_salary`.  Provided the unguarded fields — the seven book counters and
the `deduction_cash_advance` / `deduction_unlawful` / `deduction_tours` /
`deduction_others` amounts — are well-formed numbers, no NaN reaches
`total_books`, `commission`, `total_deductions` or `final_salary`, even when
every guarded field is NaN. -/
theorem recalculateEntryN_guarded_no_nan (entry : SalaryEntryN)
    (contractualBaseSalary : ℚ) (ratesMap : String → Option CommissionStructure)
    (bonusRates : BonusRates) (commissionTypeOverride : Option String)
    (managerContext : Option ManagerContext)
    (h1 : entry.book_1_5.isSome) (h2 : entry.book_3.isSome)
    (h3 : entry.book_5.isSome) (h4 : entry.book_8.isSome)
    (h5 : entry.book_10.isSome) (h6 : entry.book_12.isSome)
    (h7 : entry.book_no_bonus.isSome)
    (h8 : entry.deduction_cash_advance.isSome)
    (h9 : entry.deduction_unlawful.isSome)
    (h10 : entry.deduction_tours.isSome)
    (h11 : entry.deduction_others.isSome) :
    (recalculateEntryN entry contractualBaseSalary ratesMap bonusRates
      commissionTypeOverride managerContext).total_books.isSome ∧
    (recalculateEntryN entry contractualBaseSalary ratesMap bonusRates
      commissionTypeOverride managerContext).commission.isSome ∧
    (recalculateEntryN entry contractualBaseSalary ratesMap bonusRates
      commissionTypeOverride managerContext).total_deductions.isSome ∧
    (recalculateEntryN entry contractualBaseSalary ratesMap bonusRates
      commissionTypeOverride managerContext).final_salary.isSome := by
  obtain ⟨b1, hb1⟩ := Option.isSome_iff_exists.mp h1
  obtain ⟨b2, hb2⟩ := Option.isSome_iff_exists.mp h2
  obtain ⟨b3, hb3⟩ := Option.isSome_iff_exists.mp h3
  obtain ⟨b4, hb4⟩ := Option.isSome_iff_exists.mp h4
  obtain ⟨b5, hb5⟩ := Option.isSome_iff_exists.mp h5
  obtain ⟨b6, hb6⟩ := Option.isSome_iff_exists.mp h6
  obtain ⟨b7, hb7⟩ := Option.isSome_iff_exists.mp h7
  obtain ⟨d1, hd1⟩ := Option.isSome_iff_exists.mp h8
  obtain ⟨d2, hd2⟩ := Option.isSome_iff_exists.mp h9
  obtain ⟨d3, hd3⟩ := Option.isSome_iff_exists.mp h10
  obtain ⟨d4, hd4⟩ := Option.isSome_iff_exists.mp h11
  obtain ⟨v1, hv1⟩ := jOrZero_eq_some entry.own_somity_collection
  obtain ⟨v2, hv2⟩ := jOrZero_eq_some entry.office_somity_collection
  obtain ⟨v3, hv3⟩ := jOrZero_eq_some entry.center_collection
  obtain ⟨v4, hv4⟩ := jOrZero_eq_some entry.total_loan_collection
  obtain ⟨v5, hv5⟩ := jOrZero_eq_some entry.input_late_hours
  obtain ⟨v6, hv6⟩ := jOrZero_eq_some entry.input_absent_days
  obtain ⟨v7, hv7⟩ := jOrZero_eq_some entry.misconductDeduction
  obtain ⟨v8, hv8⟩ := jOrZero_eq_some entry.manager_convenience
  obtain ⟨v9, hv9⟩ := jOrZero_eq_some entry.basic_salary
  refine ⟨?_, ?_, ?_, ?_⟩
  · simp [recalculateEntryN, hb1, hb2, hb3, hb4, hb5, hb6, hb7, jadd]
  · simp [recalculateEntryN, hb1, hb2, hb3, hb4, hb5, hb6, hv1, hv2, jadd, jmul]
  · simp [recalculateEntryN, hd1, hd2, hd3, hd4, hv5, hv6, hv7, jadd, jmul]
  · rcases managerContext with _ | ⟨im, btc⟩
    · simp only [recalculateEntryN]
      split <;>
        simp [hb1, hb2, hb3, hb4, hb5, hb6, hb7, hd1, hd2, hd3, hd4, hv1, hv2, hv3,
          hv4, hv5, hv6, hv7, hv8, hv9, jadd, jsub, jmul]
    · cases im <;>
      · simp only [recalculateEntryN]
        split <;>
          simp [hb1, hb2, hb3, hb4, hb5, hb6, hb7, hd1, hd2, hd3, hd4, hv1, hv2, hv3,
            hv4, hv5, hv6, hv7, hv8, hv9, jadd, jsub, jmul, jmaxZero]

/-- Entry whose guarded fields are all `NaN` but whose book counters and
direct deduction amounts are ordinary numbers. -/
def nanGuardedEntry : SalaryEntryN :=
  { basic_salary := none
    commission_type := "A"
    own_somity_collection := none
    office_somity_collection := none
    center_collection := none
    total_loan_collection := none
    book_1_5 := some 1
    book_3 := some 2
    book_5 := some 3
    book_8 := some 0
    book_10 := some 0
    book_12 := some 0
    book_no_bonus := some 4
    input_late_hours := none
    input_absent_days := none
    deduction_cash_advance := some 100
    deduction_late := some 0
    deduction_abs := some 0
    misconductDeduction := none
    deduction_unlawful := some 50
    deduction_tours := some 20
    deduction_others := some 10
    manager_convenience := none
    total_books := some 0
    total_collection := some 0
    total_deductions := some 0
    commission := some 0
    bonus := some 0
    final_salary := some 0 }

/-- Witness for the amended C5: with every guarded field `NaN` and the
unguarded fields well-formed, the four derived outputs are well-formed
numbers. -/
theorem recalculateEntryN_guarded_no_nan_witness :
    (recalculateEntryN nanGuardedEntry 26000
      (fun t => if t = "A" then some ⟨10, 6⟩ else none) ⟨5, 10, 15, 20, 25, 30⟩
      none (some ⟨true, 50000⟩)).total_books.isSome ∧
    (recalculateEntryN nanGuardedEntry 26000
      (fun t => if t = "A" then some ⟨10, 6⟩ else none) ⟨5, 10, 15, 20, 25, 30⟩
      none (some ⟨true, 50000⟩)).commission.isSome ∧
    (recalculateEntryN nanGuardedEntry 26000
      (fun t => if t = "A" then some ⟨10, 6⟩ else none) ⟨5, 10, 15, 20, 25, 30⟩
      none (some ⟨true, 50000⟩)).total_deductions.isSome ∧
    (recalculateEntryN nanGuardedEntry 26000
      (fun t => if t = "A" then some ⟨10, 6⟩ else none) ⟨5, 10, 15, 20, 25, 30⟩
      none (some ⟨true, 50000⟩)).final_salary.isSome :=
  recalculateEntryN_guarded_no_nan nanGuardedEntry 26000
    (fun t => if t = "A" then some ⟨10, 6⟩ else none) ⟨5, 10, 15, 20, 25, 30⟩
    none (some ⟨true, 50000⟩)
    rfl rfl rfl rfl rfl rfl rfl rfl rfl rfl rfl

end SalaryManager
